import Mathlib

/-!
Shallow embedding of the payment reconciliation core of the ndaku backend
(`src/controllers/paymentController.js`, first copy, lines 1-1492, the one the
routes export).  JavaScript strings are modelled as Lean `String`
(`List Char` data); dynamic values that may be a number, a string or
`undefined` are modelled by `JSValue`; timestamps are modelled at month
granularity by a `Nat` parameter `now` (the code only ever adds whole months
to the current date).  Database effects (Mongoose `find`/`save`) are modelled
by explicit state passing over a `DB` record.
-/

/-- Canonical payment status, the `status` enum of `paymentSchema`
(`'pending' | 'success' | 'failed' | 'canceled'`). -/
inductive PayStatus where
  | pending
  | success
  | failed
  | canceled
deriving DecidableEq, Repr

/-- String stored into `Listing.paymentStatus` and compared by the JS code. -/
def PayStatus.toStr : PayStatus → String
  | .pending => "pending"
  | .success => "success"
  | .failed => "failed"
  | .canceled => "canceled"

/-- A JavaScript value as it reaches the status helpers: a number, a string,
or `undefined`. -/
inductive JSValue where
  | num (n : Int)
  | str (s : String)
  | undef
deriving DecidableEq, Repr

/-- JavaScript truthiness for the three value shapes we model
(`undefined`, `0` and `""` are falsy). -/
def jsTruthy : JSValue → Bool
  | .undef => false
  | .num n => n != 0
  | .str s => s != ""

/-- JavaScript `a || b` on modelled values. -/
def jsOr (a b : JSValue) : JSValue :=
  if jsTruthy a then a else b

/-- JavaScript `String(v)` for the shapes we model. -/
def jsToString : JSValue → String
  | .num n => toString n
  | .str s => s
  | .undef => "undefined"

/-- Does the character list start with the given pattern?
Models JavaScript `String.prototype.startsWith` (pattern first). -/
def headMatches : List Char → List Char → Bool
  | [], _ => true
  | _ :: _, [] => false
  | p :: ps, c :: cs => p == c && headMatches ps cs

/-- Does `pat` occur as a contiguous run inside `l`?
Models JavaScript `String.prototype.includes`. -/
def listIncludes (l pat : List Char) : Bool :=
  match l with
  | [] => pat.isEmpty
  | _ :: rest => headMatches pat l || listIncludes rest pat

/-- `String.prototype.includes`, lifted to Lean strings. -/
def strIncludes (s pat : String) : Bool :=
  listIncludes s.toList pat.toList

/-- `String.prototype.toUpperCase` (ASCII, which is all the code compares). -/
def jsUpper (s : String) : String :=
  String.mk (s.toList.map Char.toUpper)

/-- `String.prototype.trim`. -/
def jsTrim (s : String) : String :=
  String.mk (((s.toList.dropWhile Char.isWhitespace).reverse.dropWhile
    Char.isWhitespace).reverse)

/-- JavaScript `!isNaN(s)` for a string `s`: `Number(s)` is not `NaN`.
Modelled as: the trimmed string is empty (`Number('') = 0`) or consists of
digits only.  Every status string the controller can branch differently on is
covered exactly: keyword statuses contain letters (non-numeric under both
readings) and all-digit strings are numeric under both readings; other
numeric spellings (signs, decimals, hex) match none of the switch cases nor
any keyword, so both readings fall to the same `pending` default. -/
def jsIsNumericStr (s : String) : Bool :=
  (jsTrim s).toList.all Char.isDigit

/-- `getPaymentStatus(status, statusCode, statusDescription)`
(paymentController.js lines 40-86): the bundle normalizer used by the
initialization flow and the webhook handler.  The `try/catch` wrapper only
turns a thrown exception into `pending`; the modelled arithmetic never
throws. -/
def getPaymentStatus (status statusCode statusDescription : JSValue) : PayStatus :=
  -- First check statusCode if it exists (lines 46-50)
  if statusCode == .str "200" || statusCode == .num 200 then .success
  else if statusCode == .str "201" || statusCode == .num 201 then .pending
  else if statusCode == .str "400" || statusCode == .num 400 then .failed
  -- Then check main status (lines 53-55, strict equality against numbers)
  else if status == .num 200 then .success
  else if status == .num 201 then .pending
  else if status == .num 400 then .failed
  else
    -- Check status description if available (lines 58-63)
    let descResult : Option PayStatus :=
      if jsTruthy statusDescription then
        let upperDesc := jsUpper (jsToString statusDescription)
        if upperDesc == "ACCEPTED" || upperDesc == "SUCCESS"
            || strIncludes upperDesc "SUCCESS" || strIncludes upperDesc "ACCEPT" then
          some .success
        else if upperDesc == "PENDING" || strIncludes upperDesc "PENDING"
            || strIncludes upperDesc "WAIT" then
          some .pending
        else if upperDesc == "FAILED" || upperDesc == "DECLINED"
            || strIncludes upperDesc "FAIL" || strIncludes upperDesc "DECLIN"
            || strIncludes upperDesc "REJECT" || strIncludes upperDesc "CANCEL" then
          some .failed
        else none
      else none
    match descResult with
    | some r => r
    | none =>
      -- Additional check for statusCode as string in another format (lines 66-71)
      match statusCode with
      | .str sc =>
        let trimmedCode := jsTrim sc
        if trimmedCode == "200" || trimmedCode == "0" || trimmedCode == "OK" then .success
        else if trimmedCode == "201" then .pending
        else if trimmedCode == "400" || headMatches "4".toList trimmedCode.toList
            || headMatches "5".toList trimmedCode.toList then .failed
        else .pending
      | _ => .pending

/-- `mapMaishapayStatus(status)` (paymentController.js lines 91-129): the
single-representation normalizer used by the polling flow. -/
def mapMaishapayStatus : JSValue → PayStatus
  | .num n =>
    -- switch (status.toString())
    if n == 200 then .success
    else if n == 201 || n == 202 then .pending
    else if n == 400 || n == 500 then .failed
    else .pending
  | .str s =>
    if jsIsNumericStr s then
      -- numeric string: switch on the string itself
      if s == "200" then .success
      else if s == "201" || s == "202" then .pending
      else if s == "400" || s == "500" then .failed
      else .pending
    else
      let upperStatus := jsUpper s
      -- exact matches first (the statusMap object)
      if upperStatus == "SUCCESS" || upperStatus == "APPROVED"
          || upperStatus == "ACCEPTED" then .success
      else if upperStatus == "PENDING" then .pending
      else if upperStatus == "DECLINED" || upperStatus == "FAILED" then .failed
      else if upperStatus == "CANCELED" then .canceled
      -- partial matches
      else if strIncludes upperStatus "SUCCESS" || strIncludes upperStatus "ACCEPT" then .success
      else if strIncludes upperStatus "PENDING" then .pending
      else if strIncludes upperStatus "FAIL" || strIncludes upperStatus "DECLINE"
          || strIncludes upperStatus "CANCEL" then .failed
      else .pending
  | .undef => .pending

/-- Last `n` elements of a list; models `String.prototype.slice(-n)` on the
digit-filtered string. -/
def takeLast (n : Nat) (l : List Char) : List Char :=
  l.drop (l.length - n)

/-- `formatPhone` (paymentController.js lines 31-35):
canonicalizes a phone number to `+243...`; `\D` removal is digit filtering. -/
def formatPhone (phone : String) : String :=
  if headMatches "+243".toList phone.toList then phone
  else if headMatches "243".toList phone.toList then "+" ++ phone
  else "+243" ++ String.mk (takeLast 9 (phone.toList.filter Char.isDigit))

/-- `convertUSDtoCDF` (line 30): `Math.round(amountUSD * 2902.50)`, exact for
the integral USD plan prices (`x * 2902.5 = x * 29025 / 10`, rounded half
up). -/
def convertUSDtoCDF (amountUSD : Nat) : Nat :=
  (amountUSD * 29025 + 5) / 10

/-- A subscription plan entry of `CONFIG.SUBSCRIPTION_PLANS` (lines 19-25). -/
structure Plan where
  duration : Nat
  priceUSD : Nat
deriving DecidableEq, Repr

/-- `CONFIG.SUBSCRIPTION_PLANS` (paymentController.js lines 19-25). -/
def SUBSCRIPTION_PLANS : List (String × Plan) :=
  [("1_month", ⟨1, 10⟩),
   ("2_months", ⟨2, 15⟩),
   ("3_months", ⟨3, 20⟩),
   ("6_months", ⟨6, 40⟩),
   ("12_months", ⟨12, 70⟩)]

/-- Payment document: the `paymentSchema` fields the controller reads or
writes (audit fields `responseData`/`webhookData`/`lastStatusCheck` and
timestamps are elided; the Mongo `_id` is modelled as a string `id`). -/
structure Payment where
  id : String
  listingId : Nat
  planId : String
  duration : Nat
  amountUSD : Nat
  amountCDF : Nat
  amount : Nat
  currency : String
  paymentMethod : String
  phoneNumber : String
  transactionId : String
  externalId : String
  status : PayStatus
deriving DecidableEq, Repr

/-- Listing document: the subscription-state fields touched by the payment
controller.  Date fields are at month granularity. -/
structure Listing where
  id : Nat
  status : String
  paymentStatus : String
  activeSubscription : Bool
  isDeleted : Bool
  expiryMonth : Option Nat
  subscriptionStartMonth : Option Nat
  subscriptionPlan : Option String
  paymentId : Option String
deriving DecidableEq, Repr

/-- The durable store shared by all request handlers. -/
structure DB where
  payments : List Payment
  listings : List Listing
deriving DecidableEq, Repr

/-- `Listing.findById`. -/
def DB.findListing (db : DB) (lid : Nat) : Option Listing :=
  db.listings.find? (fun l => l.id == lid)

/-- `listing.save()` (replace the document with the same `_id`). -/
def DB.saveListing (db : DB) (l : Listing) : DB :=
  { db with listings := db.listings.map (fun m => if m.id == l.id then l else m) }

/-- `Payment.findOne({$or: [{transactionId}, {externalId: transactionId}]})`
— the lookup used by both `handlePaymentWebhook` (which adds a redundant
`String(transactionId)` disjunct; ids are already strings here) and
`checkPaymentStatus`. -/
def DB.findPaymentByTxOrExt (db : DB) (tid : String) : Option Payment :=
  db.payments.find? (fun p => p.transactionId == tid || p.externalId == tid)

/-- `payment.save()` on an existing document. -/
def DB.savePayment (db : DB) (p : Payment) : DB :=
  { db with payments := db.payments.map (fun q => if q.id == p.id then p else q) }

/-- `new Payment({...}); await payment.save()` — insert a fresh document. -/
def DB.insertPayment (db : DB) (p : Payment) : DB :=
  { db with payments := db.payments ++ [p] }

/-- The stored status of the payment document with the given `_id`. -/
def DB.paymentStatusOf (db : DB) (pid : String) : Option PayStatus :=
  (db.payments.find? (fun q => q.id == pid)).map Payment.status

/-- `updateListingAfterPayment(payment)` (lines 1037-1088).  `new Date()` is
the month counter `now`; `expiryDate.setMonth(currentDate.getMonth() +
planDuration)` becomes `now + planDuration`.  Returns `none` when the listing
lookup fails and the function throws. -/
def updateListingAfterPayment (db : DB) (p : Payment) (now : Nat) : Option DB :=
  match db.findListing p.listingId with
  | none => none
  | some listing =>
    let planDuration :=
      if p.duration != 0 then p.duration
      else match SUBSCRIPTION_PLANS.lookup p.planId with
        | some plan => plan.duration
        | none => 3
    some (db.saveListing
      { listing with
        status := "available"
        isDeleted := false
        expiryMonth := some (now + planDuration)
        paymentStatus := "paid"
        paymentId := some (if p.transactionId != "" then p.transactionId else p.id)
        subscriptionPlan := some p.planId
        subscriptionStartMonth := some now
        activeSubscription := true })

/-- Raw webhook body fields read by `handlePaymentWebhook`
(lines 883-886 coalesce `req.body.x || req.body.data?.x`). -/
structure WebhookPayload where
  transactionId : Option String
  dataTransactionId : Option String
  transactionStatus : JSValue
  dataStatus : JSValue
  status : JSValue
  statusCode : JSValue
  dataStatusCode : JSValue
  statusDescription : JSValue
  dataStatusDescription : JSValue
deriving DecidableEq, Repr

/-- JavaScript `a || b` for id fields (ids modelled as strings, `''` falsy). -/
def jsOrStr : Option String → Option String → Option String
  | some s, b => if s == "" then b else some s
  | none, b => b

/-- Line 883: `req.body.transactionId || req.body.data?.transactionId`. -/
def WebhookPayload.txId (b : WebhookPayload) : Option String :=
  jsOrStr b.transactionId b.dataTransactionId

/-- Lines 884-886 and 926: the status bundle fed to `getPaymentStatus`. -/
def WebhookPayload.normStatus (b : WebhookPayload) : PayStatus :=
  getPaymentStatus (jsOr b.transactionStatus (jsOr b.dataStatus b.status))
    (jsOr b.statusCode b.dataStatusCode)
    (jsOr b.statusDescription b.dataStatusDescription)

/-- The post-acknowledgment processing of `handlePaymentWebhook`
(lines 883-1031), run after the 200 response has been sent. -/
def webhookProcess (db : DB) (body : WebhookPayload) (now : Nat) : DB :=
  match body.txId with
  | none => db
  | some tid =>
    match db.findPaymentByTxOrExt tid with
    | none => db
    | some payment =>
      let oldStatus := payment.status
      let newStatus := body.normStatus
      let payment1 := { payment with status := newStatus }
      let db1 := db.savePayment payment1
      if newStatus == .success then
        match db1.findListing payment1.listingId with
        | none => db1
        | some listing =>
          if listing.status != "available" || listing.paymentStatus != "paid"
              || !listing.activeSubscription then
            -- updateListingAfterPayment; a throw is swallowed by the inner catch
            (updateListingAfterPayment db1 payment1 now).getD db1
          else db1
      else if newStatus == .failed && oldStatus != .failed then
        -- Listing.findByIdAndUpdate(listingId, {$set: {paymentStatus: 'failed'}})
        { db1 with listings := db1.listings.map (fun l =>
            if l.id == payment1.listingId then { l with paymentStatus := "failed" } else l) }
      else db1

/-- HTTP response code paired with the resulting store. -/
structure WebhookResult where
  httpCode : Nat
  db : DB
deriving DecidableEq, Repr

/-- `handlePaymentWebhook` (lines 875-1032): `res.status(200).json(...)` is
sent first, unconditionally, then processing mutates the store; every later
`return` and both catch blocks leave the 200 acknowledgment in place. -/
def handlePaymentWebhook (db : DB) (body : WebhookPayload) (now : Nat) : WebhookResult :=
  ⟨200, webhookProcess db body now⟩

/-- Outcome of the outbound gateway status query in `checkPaymentStatus`:
for mobile money, `ok d` carries `response.data.data?.status` (`d = none`
when `response.data.data` is absent); `failure` is any axios error (network
error, timeout, or error response), which lands in the `catch (apiError)`
block. -/
inductive GatewayAnswer where
  | ok (dataStatus : Option JSValue)
  | failure
deriving DecidableEq, Repr

/-- Response of the status-check endpoint: HTTP code, the status string
returned in the body (when one is), and the resulting store. -/
structure StatusResult where
  httpCode : Nat
  retStatus : Option PayStatus
  db : DB
deriving DecidableEq, Repr

/-- `checkPaymentStatus` (lines 531-680), production path for a mobile-money
payment (the `NODE_ENV === 'development'` shortcut is not modelled; the card
branch differs only in which raw field is fed to `mapMaishapayStatus`). -/
def checkPaymentStatus (db : DB) (txParam : String) (g : GatewayAnswer) (now : Nat) :
    StatusResult :=
  if txParam == "" then ⟨400, none, db⟩
  else
    match db.findPaymentByTxOrExt txParam with
    | none => ⟨404, none, db⟩
    | some payment =>
      match g with
      | .ok dataStatus =>
        let oldStatus := payment.status
        -- newStatus = response.data.data ? mapMaishapayStatus(data.status) : oldStatus
        let newStatus :=
          match dataStatus with
          | some v => mapMaishapayStatus v
          | none => oldStatus
        let payment1 := { payment with status := newStatus }
        let db1 := db.savePayment payment1
        if oldStatus != .success && newStatus == .success then
          match updateListingAfterPayment db1 payment1 now with
          | some db2 => ⟨200, some newStatus, db2⟩
          | none => ⟨500, none, db1⟩  -- the throw escapes to the outer catch
        else ⟨200, some newStatus, db1⟩
      | .failure =>
        -- catch (apiError): best-effort listing re-sync, then reply 200 with
        -- the last known internal status
        let db1 :=
          if payment.status == .success then
            match db.findListing payment.listingId with
            | some listing =>
              if listing.status != "available" || listing.paymentStatus != "paid" then
                (updateListingAfterPayment db payment now).getD db
              else db
            | none => db
          else db
        ⟨200, some payment.status, db1⟩

/-- Request body of the mobile-money initiation endpoint. -/
structure InitRequest where
  planId : String
  paymentMethod : String
  phoneNumber : String
  listingId : Nat
  currency : Option String
deriving DecidableEq, Repr

/-- Fields of the MaishaPay response to the initiation POST that the handler
reads (`response.data.status`, `response.data.data?...`). -/
structure InitGatewayData where
  status : JSValue
  dataStatusCode : JSValue
  dataStatusDescription : JSValue
  dataTransactionId : Option String
deriving DecidableEq, Repr

/-- Outcome of the single outbound `axios.post` of the initiation flow. -/
inductive InitOutcome where
  | ok (r : InitGatewayData)
  | timeout      -- error.code === 'ECONNABORTED'
  | errResponse  -- gateway replied with an error body
deriving DecidableEq, Repr

/-- Response of the initiation endpoint: HTTP code, the `paymentId` returned
to the frontend (when any), and the resulting store. -/
structure InitResult where
  httpCode : Nat
  paymentIdRet : Option String
  db : DB
deriving DecidableEq, Repr

/-- The payment document created by the initiation flow — the
`new Payment({...})` literal at lines 290-307, with the currency/amount
selection of lines 206, 224-230 (`new Date()` audit fields elided).  The
record carries the injected fresh `externalId` and stores the gateway
transaction id `response.data.data?.transactionId || ''`. -/
def mkInitPayment (req : InitRequest) (newId extId : String) (plan : Plan)
    (r : InitGatewayData) : Payment :=
  let selectedCurrency := req.currency.getD "CDF"
  let amount := if selectedCurrency == "USD" then plan.priceUSD
                else convertUSDtoCDF plan.priceUSD
  { id := newId
    listingId := req.listingId
    planId := req.planId
    duration := plan.duration
    amountUSD := plan.priceUSD
    amountCDF := convertUSDtoCDF plan.priceUSD
    amount := amount
    currency := selectedCurrency
    paymentMethod := req.paymentMethod
    phoneNumber := formatPhone req.phoneNumber
    transactionId := r.dataTransactionId.getD ""
    externalId := extId
    status := getPaymentStatus r.status r.dataStatusCode r.dataStatusDescription }

/-- `initializeMobileMoneyPayment` (lines 194-363; name shortened).
`newId` and `extId` inject the effectful `new Payment()._id` and
`generateExternalId()` values — the latter is
`NDAKU-<Date.now()>-<8 random hex chars>`, freshly generated on every call
(line 29); the request never carries an external reference.  `listingId = 0`
stands for a falsy/missing id. -/
def initMobileMoneyPayment (db : DB) (req : InitRequest) (newId extId : String)
    (g : InitOutcome) (now : Nat) : InitResult :=
  -- if (!planId || !paymentMethod || !phoneNumber || !listingId) return 400
  if req.planId == "" || req.paymentMethod == "" || req.phoneNumber == ""
      || req.listingId == 0 then ⟨400, none, db⟩
  else
    let selectedCurrency := req.currency.getD "CDF"
    if selectedCurrency != "USD" && selectedCurrency != "CDF" then ⟨400, none, db⟩
    else
      match SUBSCRIPTION_PLANS.lookup req.planId with
      | none => ⟨400, none, db⟩
      | some plan =>
        match db.findListing req.listingId with
        | none => ⟨404, none, db⟩
        | some _ =>
          -- the charge amount for the axios payload is computed here in the
          -- source; it reappears in `mkInitPayment` for the stored record
          match g with
          | .timeout => ⟨504, none, db⟩       -- no record was created yet
          | .errResponse => ⟨500, none, db⟩
          | .ok r =>
            let payment := mkInitPayment req newId extId plan r
            let paymentStatus := payment.status
            let db1 := db.insertPayment payment
            if paymentStatus == .success then
              match updateListingAfterPayment db1 payment now with
              | some db2 => ⟨200, some newId, db2⟩
              | none => ⟨500, none, db1⟩
            else
              let db2 := { db1 with listings := db1.listings.map (fun l =>
                  if l.id == req.listingId then
                    { l with paymentStatus := paymentStatus.toStr,
                             status := "pending_payment" }
                  else l) }
              ⟨200, some newId, db2⟩

/-!
Interleaving model for one in-flight webhook delivery and one in-flight
status poll on the same transaction.  Node.js interleaves the two handlers
at `await` boundaries; each step below is one synchronous block between two
such boundaries, built from the same store operations as the sequential
handlers above.  `effects` is a ghost counter of executions of
`updateListingAfterPayment`, the subscription-activation side effect.
-/

/-- Configuration of the two concurrent handlers: shared store, ghost effect
counter, and per-handler program counter plus in-memory document snapshot. -/
structure RaceState where
  db : DB
  effects : Nat
  wpc : Nat
  wdoc : Option Payment
  ppc : Nat
  pdoc : Option Payment
deriving DecidableEq, Repr

/-- One atomic block of the webhook handler: 0 = `Payment.findOne`;
1 = compute `newStatus`, `payment.save()`; 2 = `Listing.findById` guard;
3 = `updateListingAfterPayment`; 4 = mark listing payment failed;
9 = finished. -/
def wstep (body : WebhookPayload) (now : Nat) (s : RaceState) : RaceState :=
  match s.wpc with
  | 0 =>
    match body.txId with
    | none => { s with wpc := 9 }
    | some tid =>
      match s.db.findPaymentByTxOrExt tid with
      | none => { s with wpc := 9 }
      | some p => { s with wdoc := some p, wpc := 1 }
  | 1 =>
    match s.wdoc with
    | some p =>
      let newStatus := body.normStatus
      let p1 := { p with status := newStatus }
      { s with
        db := s.db.savePayment p1
        wdoc := some p1
        wpc := if newStatus == .success then 2
               else if newStatus == .failed && p.status != .failed then 4 else 9 }
    | none => { s with wpc := 9 }
  | 2 =>
    match s.wdoc with
    | some p1 =>
      match s.db.findListing p1.listingId with
      | none => { s with wpc := 9 }
      | some listing =>
        if listing.status != "available" || listing.paymentStatus != "paid"
            || !listing.activeSubscription then { s with wpc := 3 }
        else { s with wpc := 9 }
    | none => { s with wpc := 9 }
  | 3 =>
    match s.wdoc with
    | some p1 =>
      match updateListingAfterPayment s.db p1 now with
      | some db2 => { s with db := db2, effects := s.effects + 1, wpc := 9 }
      | none => { s with wpc := 9 }
    | none => { s with wpc := 9 }
  | 4 =>
    match s.wdoc with
    | some p1 =>
      { s with
        db := { s.db with listings := s.db.listings.map (fun l =>
          if l.id == p1.listingId then { l with paymentStatus := "failed" } else l) }
        wpc := 9 }
    | none => { s with wpc := 9 }
  | _ => s

/-- One atomic block of the poll handler: 0 = `Payment.findOne` (the
`oldStatus` snapshot lives in the fetched document); 1 = gateway query
returns, compute `newStatus`, `payment.save()`; 2 =
`updateListingAfterPayment`; 9 = finished. -/
def pstep (txParam : String) (g : GatewayAnswer) (now : Nat) (s : RaceState) : RaceState :=
  match s.ppc with
  | 0 =>
    match s.db.findPaymentByTxOrExt txParam with
    | none => { s with ppc := 9 }
    | some p => { s with pdoc := some p, ppc := 1 }
  | 1 =>
    match s.pdoc, g with
    | some p, .ok dataStatus =>
      let oldStatus := p.status
      let newStatus :=
        match dataStatus with
        | some v => mapMaishapayStatus v
        | none => oldStatus
      let p1 := { p with status := newStatus }
      { s with
        db := s.db.savePayment p1
        pdoc := some p1
        ppc := if oldStatus != .success && newStatus == .success then 2 else 9 }
    | _, _ => { s with ppc := 9 }
  | 2 =>
    match s.pdoc with
    | some p1 =>
      match updateListingAfterPayment s.db p1 now with
      | some db2 => { s with db := db2, effects := s.effects + 1, ppc := 9 }
      | none => { s with ppc := 9 }
    | none => { s with ppc := 9 }
  | _ => s

/-- Run a schedule: `true` advances the webhook handler, `false` the poll. -/
def runRace (body : WebhookPayload) (txParam : String) (g : GatewayAnswer) (now : Nat) :
    List Bool → RaceState → RaceState
  | [], s => s
  | c :: rest, s =>
    runRace body txParam g now rest (if c then wstep body now s else pstep txParam g now s)

/-- Both handlers still at their entry point over the given store. -/
def raceInit (db : DB) : RaceState :=
  ⟨db, 0, 0, none, 0, none⟩

/-- A pending mobile-money payment on the 3-month plan, as created by the
initiation flow (amounts per `SUBSCRIPTION_PLANS` and `convertUSDtoCDF`). -/
def samplePayment : Payment :=
  { id := "pay1"
    listingId := 1
    planId := "3_months"
    duration := 3
    amountUSD := 20
    amountCDF := convertUSDtoCDF 20
    amount := 20
    currency := "USD"
    paymentMethod := "mpesa"
    phoneNumber := "+243812345678"
    transactionId := "TX1"
    externalId := "EXT1"
    status := .pending }

/-- The listing being paid for, awaiting payment. -/
def sampleListing : Listing :=
  { id := 1
    status := "pending_payment"
    paymentStatus := "pending"
    activeSubscription := false
    isDeleted := false
    expiryMonth := none
    subscriptionStartMonth := none
    subscriptionPlan := none
    paymentId := none }

/-- Store holding the pending payment and its listing. -/
def sampleDB : DB :=
  { payments := [samplePayment], listings := [sampleListing] }

/-- A webhook delivery reporting `statusCode: "200"` (success) for `TX1`. -/
def successWebhook : WebhookPayload :=
  { transactionId := some "TX1"
    dataTransactionId := none
    transactionStatus := .undef
    dataStatus := .undef
    status := .undef
    statusCode := .str "200"
    dataStatusCode := .undef
    statusDescription := .undef
    dataStatusDescription := .undef }

/-- A stale webhook delivery reporting `statusCode: "201"` (pending). -/
def pendingWebhook : WebhookPayload :=
  { successWebhook with statusCode := .str "201" }

/-- A webhook payload with no transaction id anywhere. -/
def noTxWebhook : WebhookPayload :=
  { successWebhook with transactionId := none }

/-- A webhook payload whose transaction id matches no stored payment. -/
def unknownTxWebhook : WebhookPayload :=
  { successWebhook with transactionId := some "TX-UNKNOWN" }

/-- A valid initiation request for the 3-month plan. -/
def initReq : InitRequest :=
  { planId := "3_months"
    paymentMethod := "mpesa"
    phoneNumber := "0812345678"
    listingId := 1
    currency := some "USD" }

/-- Gateway answer to an initiation call: charge accepted, now pending. -/
def pendingGatewayData : InitGatewayData :=
  { status := .num 201
    dataStatusCode := .undef
    dataStatusDescription := .undef
    dataTransactionId := some "TX1" }

/-- A store holding only the listing, before any payment exists. -/
def emptyDB : DB :=
  { payments := [], listings := [sampleListing] }

/-- String representations recognized by some non-default rule of
`mapMaishapayStatus` (used to state the default-to-pending property). -/
def recognizedStr (s : String) : Bool :=
  if jsIsNumericStr s then
    s == "200" || s == "201" || s == "202" || s == "400" || s == "500"
  else
    let u := jsUpper s
    u == "SUCCESS" || u == "APPROVED" || u == "ACCEPTED" || u == "PENDING"
      || u == "DECLINED" || u == "FAILED" || u == "CANCELED"
      || strIncludes u "SUCCESS" || strIncludes u "ACCEPT" || strIncludes u "PENDING"
      || strIncludes u "FAIL" || strIncludes u "DECLINE" || strIncludes u "CANCEL"

/-! ## Helper lemmas -/

/-- `saveListing` never touches the payments collection. -/
theorem saveListing_payments (db : DB) (l : Listing) :
    (db.saveListing l).payments = db.payments := rfl

/-- A successful `updateListingAfterPayment` never touches the payments
collection. -/
theorem updateListingAfterPayment_payments {db : DB} {p : Payment} {now : Nat} {db2 : DB}
    (h : updateListingAfterPayment db p now = some db2) : db2.payments = db.payments := by
  unfold updateListingAfterPayment at h
  cases hfl : db.findListing p.listingId with
  | none => rw [hfl] at h; cases h
  | some listing =>
    rw [hfl] at h
    simp only [Option.some.injEq] at h
    rw [← h]
    rfl

/-- Variant for the error-swallowing call sites. -/
theorem updateListingAfterPayment_getD_payments (db : DB) (p : Payment) (now : Nat) :
    ((updateListingAfterPayment db p now).getD db).payments = db.payments := by
  cases h : updateListingAfterPayment db p now with
  | none => rfl
  | some db2 => simpa using updateListingAfterPayment_payments h

/-- After a save (replace every document carrying the saved id), looking the
id up again yields the saved document, provided a document with that id was
in the collection. -/
theorem find?_save_eq (l : List Payment) (q : Payment)
    (h : ∃ p ∈ l, p.id = q.id) :
    (l.map (fun r => if r.id == q.id then q else r)).find? (fun r => r.id == q.id)
      = some q := by
  induction l with
  | nil => simp at h
  | cons a t ih =>
    rcases h with ⟨p, hp, hpid⟩
    rcases List.mem_cons.mp hp with rfl | hmem
    · simp [List.find?, hpid]
    · by_cases ha : a.id = q.id
      · simp [List.find?, ha]
      · simp only [List.map_cons]
        rw [if_neg (show ¬((a.id == q.id) = true) by simp [ha])]
        rw [List.find?_cons_of_neg _ (by simp [ha])]
        exact ih ⟨p, hmem, hpid⟩

/-! ## Claim theorems -/

/-- C2 is false on the code: after a webhook reports Success for `TX1`
(stored status becomes `success`), a stale Pending webhook for the same
transaction regresses the stored status back to `pending` — the terminal
state is not protected. -/
theorem C2_counterexample :
    (handlePaymentWebhook sampleDB successWebhook 0).db.paymentStatusOf "pay1"
        = some .success ∧
    (handlePaymentWebhook (handlePaymentWebhook sampleDB successWebhook 0).db
        pendingWebhook 0).db.paymentStatusOf "pay1" = some .pending := by
  decide

/-- C2 (amended): the webhook handler unconditionally overwrites the stored
status of the matched payment with the normalized status of the incoming
notification, whatever the previously stored status was; terminal states are
not protected. -/
theorem C2_status_overwritten (db : DB) (body : WebhookPayload) (now : Nat)
    (tid : String) (p : Payment)
    (htid : body.txId = some tid)
    (hfind : db.findPaymentByTxOrExt tid = some p) :
    (handlePaymentWebhook db body now).db.paymentStatusOf p.id = some body.normStatus := by
  have hmem : p ∈ db.payments := List.mem_of_find?_eq_some hfind
  show (webhookProcess db body now).paymentStatusOf p.id = some body.normStatus
  unfold webhookProcess
  rw [htid]
  simp only [hfind]
  have hsave : ∀ dbx : DB,
      dbx.payments = (db.savePayment { p with status := body.normStatus }).payments →
      dbx.paymentStatusOf p.id = some body.normStatus := by
    intro dbx hx
    unfold DB.paymentStatusOf
    rw [hx]
    unfold DB.savePayment
    have hfq := find?_save_eq db.payments { p with status := body.normStatus }
      ⟨p, hmem, rfl⟩
    simp only at hfq
    rw [hfq]
    rfl
  dsimp only
  split
  · split
    · exact hsave _ rfl
    · split
      · exact hsave _ (by rw [updateListingAfterPayment_getD_payments])
      · exact hsave _ rfl
  · split
    · exact hsave _ rfl
    · exact hsave _ rfl

/-- C2 witness: the amended overwrite theorem applied to the stale-pending
delivery over the sample store. -/
theorem C2_status_overwritten_witness :
    (handlePaymentWebhook sampleDB pendingWebhook 0).db.paymentStatusOf "pay1"
      = some pendingWebhook.normStatus :=
  C2_status_overwritten sampleDB pendingWebhook 0 "TX1" samplePayment
    (by decide) (by decide)

/-- C4: the single-representation normalizer `mapMaishapayStatus` realizes
the claimed table — numeric 200/201/400, the exact string tokens, ACCEPT
keyword free text — and maps every representation recognized by no rule to
`pending`. -/
theorem C4_normalizer_table :
    (mapMaishapayStatus (.num 200) = .success ∧
     mapMaishapayStatus (.num 201) = .pending ∧
     mapMaishapayStatus (.num 400) = .failed) ∧
    (mapMaishapayStatus (.str "SUCCESS") = .success ∧
     mapMaishapayStatus (.str "APPROVED") = .success ∧
     mapMaishapayStatus (.str "ACCEPTED") = .success ∧
     mapMaishapayStatus (.str "PENDING") = .pending ∧
     mapMaishapayStatus (.str "DECLINED") = .failed ∧
     mapMaishapayStatus (.str "FAILED") = .failed ∧
     mapMaishapayStatus (.str "CANCELED") = .canceled) ∧
    mapMaishapayStatus (.str "payment was ACCEPTED by issuer") = .success ∧
    (∀ s : String, recognizedStr s = false → mapMaishapayStatus (.str s) = .pending) := by
  refine ⟨by decide, by decide, by decide, ?_⟩
  intro s h
  unfold recognizedStr at h
  simp only [mapMaishapayStatus]
  by_cases hn : jsIsNumericStr s
  · rw [if_pos hn] at h
    rw [if_pos hn]
    simp only [Bool.or_eq_false_iff] at h
    obtain ⟨⟨⟨⟨h1, h2⟩, h3⟩, h4⟩, h5⟩ := h
    simp [h1, h2, h3, h4, h5]
  · rw [if_neg hn] at h
    rw [if_neg hn]
    simp only [Bool.or_eq_false_iff] at h
    obtain ⟨⟨⟨⟨⟨⟨⟨⟨⟨⟨⟨⟨h1, h2⟩, h3⟩, h4⟩, h5⟩, h6⟩, h7⟩, h8⟩, h9⟩, h10⟩, h11⟩, h12⟩, h13⟩ := h
    simp [h1, h2, h3, h4, h5, h6, h7, h8, h9, h10, h11, h12, h13]

/-- C4 witness: the default rule applied at the unrecognized representation
from the spec table. -/
theorem C4_normalizer_table_witness :
    mapMaishapayStatus (.str "XYZ123") = .pending :=
  C4_normalizer_table.2.2.2 "XYZ123" (by decide)

/-- C5 is false on the code: a bundle with the HTTP-like code 500 and the
description SUCCESS normalizes to Success, not Failed (the string-code
fallback runs only after the description check); likewise code 202 does not
force Pending. -/
theorem C5_counterexample :
    getPaymentStatus .undef (.str "500") (.str "SUCCESS") = .success ∧
    getPaymentStatus .undef (.num 202) (.str "SUCCESS") = .success := by
  decide

/-- C5 (amended): only the codes 200, 201 and 400 are matched by the leading
checks of `getPaymentStatus` and decide the result alone — as `statusCode`
(number or exact string) regardless of the other fields, and as numeric
`status` regardless of the description when no `statusCode` rule fired;
codes 202 and 500 are not decided by the leading checks. -/
theorem C5_amended_code_precedence (st d : JSValue) :
    getPaymentStatus st (.str "200") d = .success ∧
    getPaymentStatus st (.num 200) d = .success ∧
    getPaymentStatus st (.str "201") d = .pending ∧
    getPaymentStatus st (.num 201) d = .pending ∧
    getPaymentStatus st (.str "400") d = .failed ∧
    getPaymentStatus st (.num 400) d = .failed ∧
    getPaymentStatus (.num 200) .undef d = .success ∧
    getPaymentStatus (.num 201) .undef d = .pending ∧
    getPaymentStatus (.num 400) .undef d = .failed :=
  ⟨rfl, rfl, rfl, rfl, rfl, rfl, rfl, rfl, rfl⟩

/-- C1 is false on the code: with the webhook and the poll both reporting
success for `TX1`, the interleaving in which the poll fetches the payment
document first, then the webhook runs to completion, then the poll resumes,
applies the subscription-activation side effect twice — the poll path is
guarded only by its stale `oldStatus` snapshot, the webhook path only by the
listing flags, and neither guard is an atomic claim. -/
theorem C1_counterexample :
    (runRace successWebhook "TX1" (.ok (some (.str "200"))) 0
      [false, true, true, true, true, false, false] (raceInit sampleDB)).effects = 2 := by
  decide

/-- C1 (amended): the side effect is applied exactly once when the webhook
and the poll processing do not interleave — whichever of the two handlers
runs to completion first; an interleaved schedule can apply it twice. -/
theorem C1_amended_serial_once :
    (runRace successWebhook "TX1" (.ok (some (.str "200"))) 0
      [true, true, true, true, false, false, false] (raceInit sampleDB)).effects = 1 ∧
    (runRace successWebhook "TX1" (.ok (some (.str "200"))) 0
      [false, false, false, true, true, true, true] (raceInit sampleDB)).effects = 1 := by
  decide

/-- C3 is false on the code: initiation performs no lookup by external
reference — each call generates a fresh `externalId` and appends a brand-new
payment record, so a second identical initiate call creates a second record
(and submits a second charge) instead of returning the first one. -/
theorem C3_counterexample :
    (initMobileMoneyPayment
      (initMobileMoneyPayment emptyDB initReq "pay1" "NDAKU-100-a1b2"
        (.ok pendingGatewayData) 0).db
      initReq "pay2" "NDAKU-200-c3d4" (.ok pendingGatewayData) 0).db.payments.length = 2 ∧
    (initMobileMoneyPayment
      (initMobileMoneyPayment emptyDB initReq "pay1" "NDAKU-100-a1b2"
        (.ok pendingGatewayData) 0).db
      initReq "pay2" "NDAKU-200-c3d4" (.ok pendingGatewayData) 0).paymentIdRet
        = some "pay2" ∧
    (initMobileMoneyPayment emptyDB initReq "pay1" "NDAKU-100-a1b2"
      (.ok pendingGatewayData) 0).paymentIdRet = some "pay1" := by
  decide

/-- C3 (amended): every initiation call that passes validation and receives
a gateway response appends exactly one brand-new payment record carrying the
freshly generated external id and document id; no idempotency lookup by
external reference exists. -/
theorem C3_amended_always_fresh_record (db : DB) (req : InitRequest)
    (newId extId : String) (r : InitGatewayData) (now : Nat) (plan : Plan)
    (h1 : req.planId ≠ "") (h2 : req.paymentMethod ≠ "") (h3 : req.phoneNumber ≠ "")
    (h4 : req.listingId ≠ 0)
    (h5 : req.currency.getD "CDF" = "USD" ∨ req.currency.getD "CDF" = "CDF")
    (h6 : SUBSCRIPTION_PLANS.lookup req.planId = some plan)
    (h7 : (db.findListing req.listingId).isSome) :
    (initMobileMoneyPayment db req newId extId (.ok r) now).db.payments
      = db.payments ++ [mkInitPayment req newId extId plan r] ∧
    (mkInitPayment req newId extId plan r).externalId = extId ∧
    (mkInitPayment req newId extId plan r).id = newId := by
  obtain ⟨listing, hl⟩ := Option.isSome_iff_exists.mp h7
  refine ⟨?_, rfl, rfl⟩
  unfold initMobileMoneyPayment
  rw [if_neg (by simp [h1, h2, h3, h4])]
  dsimp only
  rw [if_neg (by rcases h5 with h | h <;> simp [h])]
  simp only [h6, hl]
  split
  · split
    · rename_i db2 hup
      rw [updateListingAfterPayment_payments hup]
      rfl
    · rfl
  · rfl

/-- C3 witness: the amended theorem applied to a concrete valid initiation
over the one-listing store. -/
theorem C3_amended_always_fresh_record_witness :
    (initMobileMoneyPayment emptyDB initReq "pay1" "NDAKU-100-a1b2"
        (.ok pendingGatewayData) 0).db.payments
      = emptyDB.payments
          ++ [mkInitPayment initReq "pay1" "NDAKU-100-a1b2" ⟨3, 20⟩ pendingGatewayData] ∧
    (mkInitPayment initReq "pay1" "NDAKU-100-a1b2" ⟨3, 20⟩
        pendingGatewayData).externalId = "NDAKU-100-a1b2" ∧
    (mkInitPayment initReq "pay1" "NDAKU-100-a1b2" ⟨3, 20⟩ pendingGatewayData).id
      = "pay1" :=
  C3_amended_always_fresh_record emptyDB initReq "pay1" "NDAKU-100-a1b2"
    pendingGatewayData 0 ⟨3, 20⟩ (by decide) (by decide) (by decide) (by decide)
    (by decide) (by decide) (by decide)

/-- C6: Scenario A — on the pending 3-month-plan payment (priced 20 USD in
`SUBSCRIPTION_PLANS`), a webhook delivering statusCode "200" marks the
payment Success and activates the listing: available, paid, active
subscription, expiry three months from now, and the gateway payment
reference `TX1` recorded. -/
theorem C6_three_month_webhook_success (now : Nat) :
    SUBSCRIPTION_PLANS.lookup "3_months" = some ⟨3, 20⟩ ∧
    (handlePaymentWebhook sampleDB successWebhook now).db.paymentStatusOf "pay1"
      = some .success ∧
    (handlePaymentWebhook sampleDB successWebhook now).db.findListing 1
      = some { id := 1
               status := "available"
               paymentStatus := "paid"
               activeSubscription := true
               isDeleted := false
               expiryMonth := some (now + 3)
               subscriptionStartMonth := some now
               subscriptionPlan := some "3_months"
               paymentId := some "TX1" } :=
  ⟨rfl, rfl, rfl⟩

/-- C7: when the outbound gateway status query fails, the status-check
endpoint still replies 200 carrying the last known internal status, and the
payments collection — in particular the stored status — is untouched. -/
theorem C7_failure_returns_last_known (db : DB) (txParam : String) (p : Payment)
    (now : Nat) (htx : txParam ≠ "")
    (hfind : db.findPaymentByTxOrExt txParam = some p) :
    (checkPaymentStatus db txParam .failure now).httpCode = 200 ∧
    (checkPaymentStatus db txParam .failure now).retStatus = some p.status ∧
    (checkPaymentStatus db txParam .failure now).db.payments = db.payments := by
  unfold checkPaymentStatus
  rw [if_neg (by simp [htx])]
  refine ⟨?_, ?_, ?_⟩
  · simp [hfind]
  · simp [hfind]
  · simp only [hfind]
    split
    · split
      · split
        · exact updateListingAfterPayment_getD_payments db p now
        · rfl
      · rfl
    · rfl

/-- C7 witness: gateway failure on the sample pending transaction. -/
theorem C7_failure_returns_last_known_witness :
    (checkPaymentStatus sampleDB "TX1" .failure 0).httpCode = 200 ∧
    (checkPaymentStatus sampleDB "TX1" .failure 0).retStatus
      = some samplePayment.status ∧
    (checkPaymentStatus sampleDB "TX1" .failure 0).db.payments = sampleDB.payments :=
  C7_failure_returns_last_known sampleDB "TX1" samplePayment 0 (by decide) (by decide)

/-- C8: the webhook endpoint acknowledges with 200 for every payload — in
particular for payloads with no transaction id and payloads matching no
stored transaction, in which cases the store is also left untouched. -/
theorem C8_webhook_always_acks (db : DB) (body : WebhookPayload) (now : Nat) :
    (handlePaymentWebhook db body now).httpCode = 200 ∧
    (body.txId = none → (handlePaymentWebhook db body now).db = db) ∧
    (∀ tid : String, body.txId = some tid → db.findPaymentByTxOrExt tid = none →
      (handlePaymentWebhook db body now).db = db) := by
  refine ⟨rfl, ?_, ?_⟩
  · intro h
    show webhookProcess db body now = db
    unfold webhookProcess
    rw [h]
  · intro tid h1 h2
    show webhookProcess db body now = db
    unfold webhookProcess
    rw [h1]
    simp only [h2]

/-- C8 witness: the acknowledgment theorem at a payload with no transaction
id and at a payload whose id matches nothing. -/
theorem C8_webhook_always_acks_witness :
    (handlePaymentWebhook sampleDB noTxWebhook 0).httpCode = 200 ∧
    (handlePaymentWebhook sampleDB noTxWebhook 0).db = sampleDB ∧
    (handlePaymentWebhook sampleDB unknownTxWebhook 0).db = sampleDB :=
  ⟨(C8_webhook_always_acks sampleDB noTxWebhook 0).1,
   (C8_webhook_always_acks sampleDB noTxWebhook 0).2.1 (by decide),
   (C8_webhook_always_acks sampleDB unknownTxWebhook 0).2.2 "TX-UNKNOWN"
     (by decide) (by decide)⟩

/-- C9 is false on the code: after a gateway timeout on initiation, the
store contains no transaction record at all — the record is only created
after a gateway response arrives — so nothing is left in the Pending state
for a later poll or webhook to resolve; the caller receives 504. -/
theorem C9_counterexample :
    (initMobileMoneyPayment emptyDB initReq "pay1" "NDAKU-100-a1b2" .timeout 0).httpCode
        = 504 ∧
    (initMobileMoneyPayment emptyDB initReq "pay1" "NDAKU-100-a1b2" .timeout 0).db.payments
        = [] := by
  decide

/-- C9 (amended): a timeout on the single outbound initiate call is not
retried and leaves the store exactly as it was — in particular no payment
record is created — and for an otherwise valid request the caller receives
the 504 gateway-timeout response. -/
theorem C9_amended_timeout_no_record (db : DB) (req : InitRequest)
    (newId extId : String) (now : Nat) :
    (initMobileMoneyPayment db req newId extId .timeout now).db = db ∧
    (req.planId ≠ "" → req.paymentMethod ≠ "" → req.phoneNumber ≠ "" →
     req.listingId ≠ 0 →
     (req.currency.getD "CDF" = "USD" ∨ req.currency.getD "CDF" = "CDF") →
     (SUBSCRIPTION_PLANS.lookup req.planId).isSome →
     (db.findListing req.listingId).isSome →
     (initMobileMoneyPayment db req newId extId .timeout now).httpCode = 504) := by
  constructor
  · unfold initMobileMoneyPayment
    split
    · rfl
    · dsimp only
      split
      · rfl
      · split
        · rfl
        · split
          · rfl
          · rfl
  · intro h1 h2 h3 h4 h5 h6 h7
    obtain ⟨plan, hp⟩ := Option.isSome_iff_exists.mp h6
    obtain ⟨listing, hl⟩ := Option.isSome_iff_exists.mp h7
    unfold initMobileMoneyPayment
    rw [if_neg (by simp [h1, h2, h3, h4])]
    dsimp only
    rw [if_neg (by rcases h5 with h | h <;> simp [h])]
    simp only [hp, hl]

/-- C9 witness: the amended timeout theorem at a concrete valid request. -/
theorem C9_amended_timeout_no_record_witness :
    (initMobileMoneyPayment emptyDB initReq "pay9" "NDAKU-900-ffff" .timeout 5).db
        = emptyDB ∧
    (initMobileMoneyPayment emptyDB initReq "pay9" "NDAKU-900-ffff" .timeout 5).httpCode
        = 504 :=
  ⟨(C9_amended_timeout_no_record emptyDB initReq "pay9" "NDAKU-900-ffff" 5).1,
   (C9_amended_timeout_no_record emptyDB initReq "pay9" "NDAKU-900-ffff" 5).2
     (by decide) (by decide) (by decide) (by decide) (by decide) (by decide) (by decide)⟩

/-- A string starting with "243" cannot start with "+243". -/
theorem headMatches_plus_of_243 (l : List Char)
    (h : headMatches "243".toList l = true) :
    headMatches "+243".toList l = false := by
  cases l with
  | nil => exact absurd h (by decide)
  | cons c cs =>
    have hc : c = '2' := by
      have h2 := h
      simp only [show ("243".toList) = ['2', '4', '3'] from rfl, headMatches,
        Bool.and_eq_true, beq_iff_eq] at h2
      exact h2.1.symm
    subst hc
    simp only [show ("+243".toList) = ['+', '2', '4', '3'] from rfl, headMatches]
    rw [show (('+' : Char) == '2') = false from by decide]
    simp

/-- A character list pattern is matched by itself followed by anything. -/
theorem headMatches_self_append (pat rest : List Char) :
    headMatches pat (pat ++ rest) = true := by
  induction pat with
  | nil => rfl
  | cons c cs ih => simp [headMatches, ih]

/-- String append acts as list append on the underlying characters. -/
theorem toList_append (s t : String) : (s ++ t).toList = s.toList ++ t.toList := by
  cases s
  cases t
  rfl

/-- C10: `formatPhone` always yields a string starting with "+243": inputs
already starting with "+243" are returned unchanged, inputs starting with
"243" get "+" prepended, and every other input is rewritten to "+243"
followed by the last nine digits of the input. -/
theorem C10_formatPhone_spec (phone : String) :
    headMatches "+243".toList (formatPhone phone).toList = true ∧
    (headMatches "+243".toList phone.toList = true → formatPhone phone = phone) ∧
    (headMatches "243".toList phone.toList = true →
      formatPhone phone = "+" ++ phone) ∧
    (headMatches "+243".toList phone.toList = false →
     headMatches "243".toList phone.toList = false →
     formatPhone phone
       = "+243" ++ String.mk (takeLast 9 (phone.toList.filter Char.isDigit))) := by
  refine ⟨?_, ?_, ?_, ?_⟩
  · by_cases hp : headMatches "+243".toList phone.toList = true
    · unfold formatPhone
      rw [if_pos hp]
      exact hp
    · by_cases h2 : headMatches "243".toList phone.toList = true
      · unfold formatPhone
        rw [if_neg hp, if_pos h2, toList_append]
        simp only [show ("+" : String).toList = ['+'] from rfl,
          show ("+243".toList) = ['+', '2', '4', '3'] from rfl, List.cons_append,
          List.nil_append, headMatches]
        rw [show (('+' : Char) == '+') = true from by decide]
        simpa [show ("243".toList) = ['2', '4', '3'] from rfl] using h2
      · unfold formatPhone
        rw [if_neg hp, if_neg h2, toList_append]
        exact headMatches_self_append _ _
  · intro h
    unfold formatPhone
    rw [if_pos h]
  · intro h
    unfold formatPhone
    rw [if_neg (by rw [headMatches_plus_of_243 _ h]; simp), if_pos h]
  · intro hA hB
    unfold formatPhone
    rw [if_neg (by rw [hA]; simp), if_neg (by rw [hB]; simp)]

/-- C10 witness: the three branches at concrete phone numbers, including a
foreign-country number rewritten to its last nine digits. -/
theorem C10_formatPhone_spec_witness :
    formatPhone "+243812345678" = "+243812345678" ∧
    formatPhone "243812345678" = "+" ++ "243812345678" ∧
    formatPhone "+33612345678"
      = "+243" ++ String.mk (takeLast 9
          (("+33612345678" : String).toList.filter Char.isDigit)) :=
  ⟨(C10_formatPhone_spec "+243812345678").2.1 (by decide),
   (C10_formatPhone_spec "243812345678").2.2.1 (by decide),
   (C10_formatPhone_spec "+33612345678").2.2.2 (by decide) (by decide)⟩
